import Mathlib

/-!
Verification of the camera / input-controller / presentation-policy core of a
voxel ray-tracing viewer, shallowly embedded from the Rust source
(`src/camera.rs`, `src/lib.rs`, `src/window.rs`).

Modelling conventions:
* `f32` / `f64` values are modelled as real numbers (`ℝ`); machine rounding is
  not modelled.  `nalgebra::Unit::new_normalize` divides by the vector's norm;
  on the zero vector the embedding yields the zero vector (Lean's
  division-by-zero convention) where the floating-point code would produce
  NaN components — in both readings the result is not a unit vector.
* Rust methods that mutate `&mut self` are translated to functions returning
  the updated value (state passing).
* GPU handles (`wgpu::Surface`, `Device`, ...) are external resources; the
  only observable effect the claims mention, `surface.configure`, is modelled
  as a boolean "a reconfiguration was attempted" output of `State.resize`.
-/

noncomputable section
open Classical

/-- Three-component vector over `ℝ`, modelling `nalgebra::Vector3<f32>` and
`nalgebra::Point3<f32>`. -/
@[ext]
structure Vec3 where
  x : ℝ
  y : ℝ
  z : ℝ

/-- Componentwise addition (`nalgebra` vector addition). -/
def Vec3.add (a b : Vec3) : Vec3 :=
  ⟨a.x + b.x, a.y + b.y, a.z + b.z⟩

/-- Componentwise subtraction (`nalgebra` vector subtraction). -/
def Vec3.sub (a b : Vec3) : Vec3 :=
  ⟨a.x - b.x, a.y - b.y, a.z - b.z⟩

/-- Scalar multiplication (`nalgebra` `vector * scalar`). -/
def Vec3.smul (r : ℝ) (v : Vec3) : Vec3 :=
  ⟨r * v.x, r * v.y, r * v.z⟩

/-- Cross product, as in `nalgebra::Matrix::cross`. -/
def Vec3.cross (a b : Vec3) : Vec3 :=
  ⟨a.y * b.z - a.z * b.y, a.z * b.x - a.x * b.z, a.x * b.y - a.y * b.x⟩

/-- Dot product. -/
def Vec3.dot (a b : Vec3) : ℝ :=
  a.x * b.x + a.y * b.y + a.z * b.z

/-- Squared Euclidean norm. -/
def Vec3.normSq (v : Vec3) : ℝ :=
  v.x ^ 2 + v.y ^ 2 + v.z ^ 2

/-- Normalization, as in `nalgebra::Unit::new_normalize` / `Vector::normalize`:
the vector divided by its Euclidean norm.  On the zero vector the embedding
returns the zero vector (see the module comment). -/
def Vec3.normalize (v : Vec3) : Vec3 :=
  Vec3.smul (1 / Real.sqrt v.normSq) v

/-- Rotation of `v` about `axis` by `angle` (radians), as the matrix built by
`nalgebra::Rotation3::from_axis_angle` applied to `v` (Rodrigues matrix with
`c = cos angle`, `s = sin angle`, `t = 1 - c`). -/
def rotateAxisAngle (axis : Vec3) (angle : ℝ) (v : Vec3) : Vec3 :=
  let c := Real.cos angle
  let s := Real.sin angle
  let t := 1 - c
  ⟨(t * axis.x * axis.x + c) * v.x + (t * axis.x * axis.y - s * axis.z) * v.y +
      (t * axis.x * axis.z + s * axis.y) * v.z,
    (t * axis.x * axis.y + s * axis.z) * v.x + (t * axis.y * axis.y + c) * v.y +
      (t * axis.y * axis.z - s * axis.x) * v.z,
    (t * axis.x * axis.z - s * axis.y) * v.x + (t * axis.y * axis.z + s * axis.x) * v.y +
      (t * axis.z * axis.z + c) * v.z⟩

/-- The state of `struct Camera` (src/camera.rs). -/
structure Camera where
  position : Vec3
  direction : Vec3
  fov : ℝ
  near_clip : ℝ
  far_clip : ℝ
  yaw : ℝ
  pitch : ℝ

/-- `Camera::new` (src/camera.rs): direction starts at `(0, 0, 1)`, yaw and
pitch at `0`. -/
def Camera.new (position : Vec3) (fov near_clip far_clip : ℝ) : Camera :=
  { position := position, direction := ⟨0, 0, 1⟩, fov := fov,
    near_clip := near_clip, far_clip := far_clip, yaw := 0, pitch := 0 }

/-- `OPENGL_TO_WGPU_MATRIX` (src/camera.rs), row-major as written in the
source (`Matrix4::new` takes row-major arguments). -/
def openglToWgpuMatrix : Matrix (Fin 4) (Fin 4) ℝ :=
  !![1, 0, 0, 0;
     0, 1, 0, 0;
     0, 0, -1, 1;
     0, 0, 0, 1]

/-- `nalgebra::Matrix4::try_inverse`: `some` of the inverse for a nonsingular
matrix, `none` for a singular one. -/
def tryInverse (m : Matrix (Fin 4) (Fin 4) ℝ) : Option (Matrix (Fin 4) (Fin 4) ℝ) :=
  if m.det = 0 then none else some m⁻¹

/-- `nalgebra::Matrix4::look_at_lh(eye, target, up)`: left-handed look-at view
matrix (rows are the normalized camera axes, last column the rotated negated
eye translation). -/
def lookAtLh (eye target up : Vec3) : Matrix (Fin 4) (Fin 4) ℝ :=
  let zaxis := (Vec3.sub target eye).normalize
  let xaxis := (Vec3.cross up zaxis).normalize
  let yaxis := (Vec3.cross zaxis xaxis).normalize
  !![xaxis.x, xaxis.y, xaxis.z, -(Vec3.dot xaxis eye);
     yaxis.x, yaxis.y, yaxis.z, -(Vec3.dot yaxis eye);
     zaxis.x, zaxis.y, zaxis.z, -(Vec3.dot zaxis eye);
     0, 0, 0, 1]

/-- `nalgebra::Matrix4::new_perspective(aspect, fovy, znear, zfar)`
(right-handed, OpenGL-style). -/
def perspectiveMatrix (aspect fovy znear zfar : ℝ) : Matrix (Fin 4) (Fin 4) ℝ :=
  let f := 1 / Real.tan (fovy / 2)
  !![f / aspect, 0, 0, 0;
     0, f, 0, 0;
     0, 0, (zfar + znear) / (znear - zfar), 2 * zfar * znear / (znear - zfar);
     0, 0, -1, 0]

/-- `Camera::calc_view` (src/camera.rs): inverse of the left-handed look-at
matrix, post-multiplied by `OPENGL_TO_WGPU_MATRIX`.  The source aborts
(`expect`) when the look-at matrix is singular; the embedding returns `none`
in that case. -/
def Camera.calc_view (self : Camera) : Option (Matrix (Fin 4) (Fin 4) ℝ) :=
  Option.map (fun m => m * openglToWgpuMatrix)
    (tryInverse (lookAtLh self.position (Vec3.add self.position self.direction) ⟨0, 1, 0⟩))

/-- `Camera::calc_proj` (src/camera.rs): inverse of the perspective matrix for
aspect ratio `width / height`.  `none` models the source's abort on a singular
matrix. -/
def Camera.calc_proj (self : Camera) (width height : ℕ) : Option (Matrix (Fin 4) (Fin 4) ℝ) :=
  let aspect := (width : ℝ) / (height : ℝ)
  tryInverse (perspectiveMatrix aspect self.fov self.near_clip self.far_clip)

/-- The state of `struct CameraUniform` (src/camera.rs, duplicated in
src/lib.rs).  The matrix fields are `Option`s because they hold results of
`calc_view` / `calc_proj`, whose singular case aborts in the source. -/
structure CameraUniform where
  view_position : Fin 4 → ℝ
  view : Option (Matrix (Fin 4) (Fin 4) ℝ)
  proj : Option (Matrix (Fin 4) (Fin 4) ℝ)

/-- `CameraUniform::new`: zero position, identity matrices. -/
def CameraUniform.new : CameraUniform :=
  { view_position := ![0, 0, 0, 0], view := some 1, proj := some 1 }

/-- `CameraUniform::update_view`: stores the homogeneous camera position
(`w = 1`) and the view matrix from `calc_view`. -/
def CameraUniform.update_view (self : CameraUniform) (camera : Camera) : CameraUniform :=
  { self with
    view_position := ![camera.position.x, camera.position.y, camera.position.z, 1],
    view := camera.calc_view }

/-- `CameraUniform::update_proj`: stores the inverse projection from
`calc_proj`. -/
def CameraUniform.update_proj (self : CameraUniform) (camera : Camera)
    (width height : ℕ) : CameraUniform :=
  { self with proj := camera.calc_proj width height }

/-- The state of `struct CameraController` (src/camera.rs). -/
structure CameraController where
  amount_left : ℝ
  amount_right : ℝ
  amount_forward : ℝ
  amount_backward : ℝ
  amount_up : ℝ
  amount_down : ℝ
  rotate_horizontal : ℝ
  rotate_vertical : ℝ
  speed : ℝ
  sensitivity : ℝ
  last_mouse_pos : ℝ × ℝ

/-- `CameraController::new` (src/camera.rs): all amounts and rotation deltas
zero, `last_mouse_pos = (0, 0)`. -/
def CameraController.new (speed sensitivity : ℝ) : CameraController :=
  { amount_left := 0, amount_right := 0, amount_forward := 0, amount_backward := 0,
    amount_up := 0, amount_down := 0, rotate_horizontal := 0, rotate_vertical := 0,
    speed := speed, sensitivity := sensitivity, last_mouse_pos := (0, 0) }

/-- The subset of `winit::event::VirtualKeyCode` relevant here: the key codes
matched by `process_keyboard`, plus representative unmatched codes and
`other n` standing for the remaining key codes. -/
inductive VirtualKeyCode where
  | W | S | A | D
  | Up | Down | Left | Right
  | Space | LShift
  | Escape | RShift
  | other (code : ℕ)
  deriving DecidableEq

/-- `winit::event::ElementState`. -/
inductive ElementState where
  | Pressed
  | Released
  deriving DecidableEq

/-- `CameraController::process_keyboard` (src/camera.rs): the returned pair is
(updated controller, whether the key was recognized). -/
def process_keyboard (self : CameraController) (key : VirtualKeyCode)
    (state : ElementState) : CameraController × Bool :=
  let amount : ℝ := if state = ElementState.Pressed then 1 else 0
  match key with
  | .W | .Up => ({ self with amount_forward := amount }, true)
  | .S | .Down => ({ self with amount_backward := amount }, true)
  | .A | .Left => ({ self with amount_left := amount }, true)
  | .D | .Right => ({ self with amount_right := amount }, true)
  | .Space => ({ self with amount_up := amount }, true)
  | .LShift => ({ self with amount_down := amount }, true)
  | _ => (self, false)

/-- The movement keys recognized by `process_keyboard`: W/S/A/D, the four
arrow keys, Space, and (left) Shift. -/
def isMovementKey (key : VirtualKeyCode) : Bool :=
  match key with
  | .W | .S | .A | .D | .Up | .Down | .Left | .Right | .Space | .LShift => true
  | _ => false

/-- `CameraController::process_mouse` (src/camera.rs): stores
`mouse_pos - last_mouse_pos` into the rotation deltas.  `last_mouse_pos`
itself is not written. -/
def process_mouse (self : CameraController) (mouse_pos : ℝ × ℝ) : CameraController :=
  { self with
    rotate_horizontal := mouse_pos.1 - self.last_mouse_pos.1,
    rotate_vertical := mouse_pos.2 - self.last_mouse_pos.2 }

/-- The planar forward reference used by `update_camera`
(src/camera.rs line 168): the camera direction with its `y` component
zeroed. -/
def planarForward (camera : Camera) : Vec3 :=
  ⟨camera.direction.x, 0, camera.direction.z⟩

/-- The right axis computed by `update_camera` (src/camera.rs line 169):
`up × forward` with the planar forward. -/
def cameraRight (camera : Camera) : Vec3 :=
  Vec3.cross ⟨0, 1, 0⟩ (planarForward camera)

/-- `CameraController::update_camera` (src/camera.rs lines 159-202), with
`dt` already converted to seconds (`Duration::as_secs_f32`).  Returns the
updated controller, camera and uniform. -/
def update_camera (self : CameraController) (camera : Camera) (dt : ℝ)
    (camera_unifrom : CameraUniform) : CameraController × Camera × CameraUniform :=
  let up : Vec3 := ⟨0, 1, 0⟩
  let forward : Vec3 := planarForward camera
  let right : Vec3 := Vec3.cross up forward
  let position1 := Vec3.add camera.position
    (Vec3.smul ((self.amount_forward - self.amount_backward) * self.speed * dt) forward)
  let position2 := Vec3.add position1
    (Vec3.smul ((self.amount_right - self.amount_left) * self.speed * dt) right)
  let position3 : Vec3 :=
    { position2 with y := position2.y + (self.amount_up - self.amount_down) * self.speed * dt }
  let yaw := self.rotate_horizontal * self.sensitivity * dt
  let pitch0 := self.rotate_vertical * self.sensitivity * dt
  let selfOut := { self with rotate_horizontal := 0, rotate_vertical := 0 }
  let pitch : ℝ := if pitch0 < -90 then -90 else if pitch0 > 180 then 180 else pitch0
  let direction1 := rotateAxisAngle right.normalize pitch camera.direction
  let direction2 := rotateAxisAngle up.normalize yaw direction1
  let cameraOut : Camera :=
    { camera with position := position3, yaw := yaw, pitch := pitch, direction := direction2 }
  (selfOut, cameraOut, camera_unifrom.update_view cameraOut)

/-- Surface configuration (`wgpu::SurfaceConfiguration`), restricted to the
fields the source writes in `resize`; format / present mode / alpha mode are
opaque device data not touched by the claims. -/
structure SurfaceConfig where
  width : ℕ
  height : ℕ

/-- The application `struct State` (src/lib.rs, src/window.rs), restricted to
the fields read or written by `resize` and the frame loop; GPU handles are
external resources (see the module comment). -/
structure State where
  size : ℕ × ℕ
  config : SurfaceConfig
  camera : Camera
  camera_uniform : CameraUniform

/-- `State::resize` (src/lib.rs lines 181-190, src/window.rs lines 127-137):
when both dimensions are positive, recompute the uniform projection, store the
new size in `size` and `config`, and reconfigure the surface; otherwise do
nothing.  The boolean records whether `surface.configure` was called. -/
def State.resize (self : State) (new_size : ℕ × ℕ) : State × Bool :=
  if 0 < new_size.1 ∧ 0 < new_size.2 then
    ({ self with
        camera_uniform := self.camera_uniform.update_proj self.camera new_size.1 new_size.2,
        size := new_size,
        config := { self.config with width := new_size.1, height := new_size.2 } },
      true)
  else
    (self, false)

/-- `wgpu::SurfaceError`, the error type of `State::render`. -/
inductive SurfaceError where
  | Lost
  | Outdated
  | OutOfMemory
  | Timeout
  deriving DecidableEq

/-- Observable outcome of one `RedrawRequested` arm of the event loop
(src/lib.rs lines 606-623): the possibly-reconfigured state, whether the
event loop was asked to exit (`ControlFlow::Exit`), and whether a timeout
warning was logged. -/
structure FrameOutcome where
  state : State
  exitRequested : Bool
  timeoutLogged : Bool

/-- The `match state.render()` policy of the event loop (src/lib.rs lines
612-622): `Ok` does nothing; `Lost` / `Outdated` reconfigure via
`resize(state.size)`; `OutOfMemory` exits the loop; `Timeout` only logs. -/
def handle_render_result (st : State) (r : Except SurfaceError Unit) : FrameOutcome :=
  match r with
  | Except.ok _ => ⟨st, false, false⟩
  | Except.error SurfaceError.Lost | Except.error SurfaceError.Outdated =>
      ⟨(st.resize st.size).1, false, false⟩
  | Except.error SurfaceError.OutOfMemory => ⟨st, true, false⟩
  | Except.error SurfaceError.Timeout => ⟨st, false, true⟩

/-- Controller states reachable from `CameraController::new` by the three
operations of the source. -/
inductive Reachable : CameraController → Prop where
  | new (speed sensitivity : ℝ) : Reachable (CameraController.new speed sensitivity)
  | mouse {c : CameraController} (p : ℝ × ℝ) :
      Reachable c → Reachable (process_mouse c p)
  | keyboard {c : CameraController} (key : VirtualKeyCode) (st : ElementState) :
      Reachable c → Reachable (process_keyboard c key st).1
  | update {c : CameraController} (camera : Camera) (dt : ℝ) (u : CameraUniform) :
      Reachable c → Reachable (update_camera c camera dt u).1

/-- A camera whose direction is the vertical unit vector `(0, 1, 0)`; input of
the counterexample to the universal unit-length claim. -/
def camVertical : Camera :=
  { position := ⟨0, 0, 0⟩, direction := ⟨0, 1, 0⟩, fov := 45,
    near_clip := 1, far_clip := 100, yaw := 0, pitch := 0 }

/-- A fresh controller whose pending vertical rotation delta is `π/2`. -/
def ctrlHalfPi : CameraController :=
  { CameraController.new 10 1 with rotate_vertical := Real.pi / 2 }

/-- A concrete application state for witnesses: the initial camera of
`create_camera` (src/lib.rs line 304) with an 800×600 surface. -/
def stInit : State :=
  { size := (800, 600), config := { width := 800, height := 600 },
    camera := Camera.new ⟨0, 2, -12⟩ 45 1 100,
    camera_uniform := CameraUniform.new }

/-- Rotation about a unit axis preserves the squared norm. -/
theorem rotateAxisAngle_normSq (axis : Vec3) (angle : ℝ) (v : Vec3)
    (h : axis.normSq = 1) :
    (rotateAxisAngle axis angle v).normSq = v.normSq := by
  have ht := Real.sin_sq_add_cos_sq angle
  simp only [Vec3.normSq] at h ⊢
  simp only [rotateAxisAngle]
  linear_combination
    ((1 - Real.cos angle ^ 2) * (v.x ^ 2 + v.y ^ 2 + v.z ^ 2)
        + (1 - Real.cos angle) ^ 2 * (axis.x * v.x + axis.y * v.y + axis.z * v.z) ^ 2) * h
    + ((axis.x ^ 2 + axis.y ^ 2 + axis.z ^ 2) * (v.x ^ 2 + v.y ^ 2 + v.z ^ 2)
        - (axis.x * v.x + axis.y * v.y + axis.z * v.z) ^ 2) * ht

/-- Normalizing a vector of nonzero squared norm yields a unit vector. -/
theorem normalize_normSq (v : Vec3) (h : v.normSq ≠ 0) : v.normalize.normSq = 1 := by
  have h0 : 0 ≤ v.normSq := by
    simp only [Vec3.normSq]
    positivity
  have hpos : 0 < v.normSq := lt_of_le_of_ne h0 (Ne.symm h)
  have hs : Real.sqrt v.normSq ≠ 0 := ne_of_gt (Real.sqrt_pos.mpr hpos)
  have hsq : Real.sqrt v.normSq ^ 2 = v.normSq := Real.sq_sqrt h0
  simp only [Vec3.normSq] at h
  simp only [Vec3.normalize, Vec3.smul, Vec3.normSq] at hsq ⊢
  field_simp

/-- Claim C3: the right axis used by `update_camera` for lateral motion and
for the pitch rotation equals `up × camera.direction` with the current camera
direction (the planar forward of the source has the same cross product with
`up`, since `up × v` does not depend on `v.y`), and the output direction is
obtained by rotating about exactly this (normalized) axis by the output pitch,
then about the normalized world up by the output yaw. -/
theorem right_axis_is_up_cross_direction (self : CameraController) (camera : Camera)
    (dt : ℝ) (u : CameraUniform) :
    cameraRight camera = Vec3.cross ⟨0, 1, 0⟩ camera.direction ∧
    (update_camera self camera dt u).2.1.direction =
      rotateAxisAngle (Vec3.normalize ⟨0, 1, 0⟩) ((update_camera self camera dt u).2.1.yaw)
        (rotateAxisAngle (Vec3.normalize (cameraRight camera))
          ((update_camera self camera dt u).2.1.pitch) camera.direction) := by
  constructor
  · ext <;> simp [cameraRight, planarForward, Vec3.cross]
  · rfl

/-- Claim C4: after every `update_camera` call the camera pitch lies in
`[-90, 180]`: the instantaneous pitch is clamped to that interval before the
pitch rotation is applied, and not modified afterwards. -/
theorem pitch_clamped_after_update (self : CameraController) (camera : Camera)
    (dt : ℝ) (u : CameraUniform) :
    -90 ≤ (update_camera self camera dt u).2.1.pitch ∧
    (update_camera self camera dt u).2.1.pitch ≤ 180 := by
  dsimp only [update_camera]
  constructor <;> split_ifs <;> linarith

/-- Claim C5: `update_camera` unconditionally resets `rotate_horizontal` and
`rotate_vertical` to zero, for every controller state, camera, `dt` and
uniform. -/
theorem rotate_reset_after_update (self : CameraController) (camera : Camera)
    (dt : ℝ) (u : CameraUniform) :
    (update_camera self camera dt u).1.rotate_horizontal = 0 ∧
    (update_camera self camera dt u).1.rotate_vertical = 0 :=
  ⟨rfl, rfl⟩

/-- Claim C6: `update_camera` with `dt = 0` leaves the camera position
unchanged (every motion term carries the factor `dt`) and still zeroes the
rotation deltas; the embedding of the source has no branch on `dt`. -/
theorem zero_dt_update (self : CameraController) (camera : Camera) (u : CameraUniform) :
    (update_camera self camera 0 u).2.1.position = camera.position ∧
    (update_camera self camera 0 u).1.rotate_horizontal = 0 ∧
    (update_camera self camera 0 u).1.rotate_vertical = 0 := by
  refine ⟨?_, rfl, rfl⟩
  dsimp only [update_camera]
  ext <;> dsimp [Vec3.add, Vec3.smul, planarForward, Vec3.cross] <;> ring

/-- Claim C7: `process_keyboard` returns `true` exactly on the movement keys
(W/S/A/D, the four arrow keys, Space for up, left Shift for down), writing `1`
into the corresponding amount on press and `0` on release; every other key
returns `false` and leaves the controller unchanged. -/
theorem process_keyboard_spec (self : CameraController) (key : VirtualKeyCode)
    (state : ElementState) :
    (process_keyboard self key state).2 = isMovementKey key ∧
    (process_keyboard self key state).1 =
      (match key with
        | .W | .Up =>
            { self with amount_forward := if state = ElementState.Pressed then 1 else 0 }
        | .S | .Down =>
            { self with amount_backward := if state = ElementState.Pressed then 1 else 0 }
        | .A | .Left =>
            { self with amount_left := if state = ElementState.Pressed then 1 else 0 }
        | .D | .Right =>
            { self with amount_right := if state = ElementState.Pressed then 1 else 0 }
        | .Space =>
            { self with amount_up := if state = ElementState.Pressed then 1 else 0 }
        | .LShift =>
            { self with amount_down := if state = ElementState.Pressed then 1 else 0 }
        | _ => self) := by
  cases key <;> cases state <;> exact ⟨rfl, rfl⟩

/-- Claim C9: the frame loop handles the result of `render` by exactly this
policy: `Lost` and `Outdated` reconfigure through `resize` at the current
size, `OutOfMemory` requests event-loop exit, `Timeout` only logs, and a
successful render does none of these. -/
theorem render_error_policy (st : State) :
    handle_render_result st (Except.ok ()) = ⟨st, false, false⟩ ∧
    handle_render_result st (Except.error SurfaceError.Lost) =
      ⟨(st.resize st.size).1, false, false⟩ ∧
    handle_render_result st (Except.error SurfaceError.Outdated) =
      ⟨(st.resize st.size).1, false, false⟩ ∧
    handle_render_result st (Except.error SurfaceError.OutOfMemory) = ⟨st, true, false⟩ ∧
    handle_render_result st (Except.error SurfaceError.Timeout) = ⟨st, false, true⟩ :=
  ⟨rfl, rfl, rfl, rfl, rfl⟩

/-- Claim C2 (counterexample to the claim as stated): on a fresh controller,
calling `process_mouse` twice with the same argument `(1, 1)` leaves
`rotate_horizontal = 1`, not zero — `last_mouse_pos` is never updated, so the
second call subtracts the same `(0, 0)` again. -/
theorem process_mouse_twice_counterexample :
    (process_mouse (process_mouse (CameraController.new 10 1) (1, 1)) (1, 1)).rotate_horizontal
      ≠ 0 := by
  simp [process_mouse, CameraController.new]

/-- Claim C2 (amended): calling `process_mouse` twice with the same argument
`p` produces the same state as calling it once; the stored rotation deltas are
`p - last_mouse_pos`, and they are both zero exactly when `p` equals
`last_mouse_pos` (not for every `p`). -/
theorem process_mouse_twice_amended (self : CameraController) (p : ℝ × ℝ) :
    process_mouse (process_mouse self p) p = process_mouse self p ∧
    ((process_mouse self p).rotate_horizontal = 0 ∧
        (process_mouse self p).rotate_vertical = 0 ↔ p = self.last_mouse_pos) := by
  constructor
  · rfl
  · simp [process_mouse, Prod.ext_iff, sub_eq_zero]

/-- Claim C8: `resize` with a zero width or zero height is a no-op — the state
(size, surface config, camera, camera uniform) is returned unchanged and no
surface reconfiguration is attempted. -/
theorem resize_zero_is_noop (st : State) (w h : ℕ) (hzero : w = 0 ∨ h = 0) :
    st.resize (w, h) = (st, false) := by
  rcases hzero with rfl | rfl <;> simp [State.resize]

/-- Witness for the C8 theorem at a concrete state and size. -/
theorem resize_zero_is_noop_witness : stInit.resize (0, 600) = (stInit, false) :=
  resize_zero_is_noop stInit 0 600 (Or.inl rfl)

/-- Claim C10: on every controller state reachable from `CameraController::new`
by `process_mouse`, `process_keyboard` and `update_camera`, `last_mouse_pos`
is still its construction value `(0, 0)` (no operation writes it), so
`process_mouse p` stores the raw components of `p` into the rotation
deltas. -/
theorem last_mouse_pos_never_written (c : CameraController) (hc : Reachable c) :
    c.last_mouse_pos = (0, 0) ∧
    ∀ p : ℝ × ℝ, (process_mouse c p).rotate_horizontal = p.1 ∧
      (process_mouse c p).rotate_vertical = p.2 := by
  have hlast : c.last_mouse_pos = (0, 0) := by
    induction hc with
    | new speed sensitivity => rfl
    | mouse p hr ih => simpa [process_mouse] using ih
    | keyboard key st hr ih => cases key <;> simpa [process_keyboard] using ih
    | update camera dt u hr ih => simpa [update_camera] using ih
  refine ⟨hlast, fun p => ?_⟩
  constructor <;> simp [process_mouse, hlast]

/-- Witness for the C10 theorem: a freshly constructed controller, with
`process_mouse (3, 4)` storing the raw components. -/
theorem last_mouse_pos_never_written_witness :
    (CameraController.new 10 1).last_mouse_pos = (0, 0) ∧
    (process_mouse (CameraController.new 10 1) (3, 4)).rotate_horizontal = 3 ∧
    (process_mouse (CameraController.new 10 1) (3, 4)).rotate_vertical = 4 :=
  ⟨(last_mouse_pos_never_written _ (Reachable.new 10 1)).1,
    ((last_mouse_pos_never_written _ (Reachable.new 10 1)).2 (3, 4)).1,
    ((last_mouse_pos_never_written _ (Reachable.new 10 1)).2 (3, 4)).2⟩

/-- Claim C1 (amended): if the camera direction is unit length and not
vertical (its horizontal projection is nonzero), then one `update_camera`
call keeps it unit length — the call composes two rotations about normalized
axes (the right axis and world up) onto the direction and writes nothing else
to it.  The non-vertical hypothesis is what makes the right axis nonzero, so
that its normalization is a genuine unit vector. -/
theorem update_preserves_unit_direction (self : CameraController) (camera : Camera)
    (dt : ℝ) (u : CameraUniform)
    (hunit : camera.direction.normSq = 1)
    (hplanar : camera.direction.x ≠ 0 ∨ camera.direction.z ≠ 0) :
    ((update_camera self camera dt u).2.1.direction).normSq = 1 := by
  have hup : (Vec3.normalize ⟨0, 1, 0⟩).normSq = 1 :=
    normalize_normSq _ (by norm_num [Vec3.normSq])
  have hrightNe : (Vec3.cross ⟨0, 1, 0⟩ (planarForward camera)).normSq ≠ 0 := by
    have h1 : 0 < camera.direction.x ^ 2 + camera.direction.z ^ 2 := by
      rcases hplanar with hx | hz
      · have hx2 : 0 < camera.direction.x ^ 2 :=
          lt_of_le_of_ne (sq_nonneg _) (Ne.symm (pow_ne_zero 2 hx))
        nlinarith [sq_nonneg camera.direction.z]
      · have hz2 : 0 < camera.direction.z ^ 2 :=
          lt_of_le_of_ne (sq_nonneg _) (Ne.symm (pow_ne_zero 2 hz))
        nlinarith [sq_nonneg camera.direction.x]
    apply ne_of_gt
    simp only [Vec3.cross, planarForward, Vec3.normSq]
    nlinarith [h1]
  have hright : (Vec3.normalize (Vec3.cross ⟨0, 1, 0⟩ (planarForward camera))).normSq = 1 :=
    normalize_normSq _ hrightNe
  dsimp only [update_camera]
  rw [rotateAxisAngle_normSq _ _ _ hup, rotateAxisAngle_normSq _ _ _ hright, hunit]

/-- Witness for the C1 theorem: the initial camera of `create_camera`
(direction `(0, 0, 1)`, unit and non-vertical) stays unit after one update. -/
theorem update_preserves_unit_direction_witness :
    ((update_camera (CameraController.new 10 1) (Camera.new ⟨0, 2, -12⟩ 45 1 100) 1
        CameraUniform.new).2.1.direction).normSq = 1 :=
  update_preserves_unit_direction _ _ _ _ (by norm_num [Camera.new, Vec3.normSq])
    (Or.inr (by norm_num [Camera.new]))

/-- Claim C1 (counterexample to the claim as stated): starting from the unit
vertical direction `(0, 1, 0)` with a pending vertical rotation of `π/2`, one
`update_camera` call produces the zero direction (the right axis degenerates
to the zero vector, whose "normalization" is not a unit axis), so the
direction does not remain unit length for every unit-direction camera. -/
theorem unit_direction_counterexample :
    camVertical.direction.normSq = 1 ∧
    ((update_camera ctrlHalfPi camVertical 1 CameraUniform.new).2.1.direction).normSq ≠ 1 := by
  constructor
  · norm_num [camVertical, Vec3.normSq]
  · have hlt : ¬ (Real.pi / 2 * 1 * 1 < (-90 : ℝ)) := by
      intro hcon
      nlinarith [Real.pi_pos]
    have hgt : ¬ (Real.pi / 2 * 1 * 1 > (180 : ℝ)) := by
      intro hcon
      nlinarith [Real.pi_lt_d2]
    have hdir : (update_camera ctrlHalfPi camVertical 1 CameraUniform.new).2.1.direction
        = ⟨0, 0, 0⟩ := by
      dsimp only [update_camera, ctrlHalfPi, camVertical, CameraController.new, planarForward]
      rw [if_neg hlt, if_neg hgt]
      ext <;>
        norm_num [rotateAxisAngle, Vec3.normalize, Vec3.cross, Vec3.smul, Vec3.normSq,
          Real.cos_pi_div_two, Real.sin_pi_div_two]
    rw [hdir]
    norm_num [Vec3.normSq]
